import Mathlib

/-!
Shallow embedding of the DMA transfer core of an STM32L4x6 HAL
(`src/dma.rs`, `src/serial/mod.rs`).  Pure Rust control flow is translated
to Lean functions; hardware registers (status flags, transfer count,
enable bit) are explicit state threaded through each operation; Rust
slicing that can panic is modelled with `Option` (`none` = panic).
-/

namespace Stm32

/-- `Half` from `src/dma.rs` lines 22-26. -/
inductive Half
  | First
  | Second
deriving DecidableEq, Repr

/-- `Error` from `src/dma.rs` lines 8-14 (the `_Extensible` hidden variant
carries no behaviour and is omitted). -/
inductive DmaError
  | Overrun
  | BufferError
deriving DecidableEq, Repr

/-- One channel's slice of the DMA interrupt-status register: global,
half-transfer, transfer-complete and transfer-error flags
(`gifX`, `htifX`, `tcifX`, `teifX`). -/
structure Flags where
  gif : Bool
  htif : Bool
  tcif : Bool
  teif : Bool
deriving DecidableEq, Repr

/-- All four flags cleared: the effect of writing the channel's `cgifX`
bit of IFCR (write-one-to-clear clears the whole group). -/
def Flags.clearedAll : Flags := ⟨false, false, false, false⟩

/-- `CircBuffer` from `src/dma.rs` lines 28-36.  The two `BUFFER` halves
are lists (same element type, equal length in the source since they come
from a `[BUFFER; 2]`); the channel handle itself is unit-like in the
source, its hardware state is passed to each operation explicitly. -/
structure CircBuffer (T : Type) where
  buf0 : List T
  buf1 : List T
  readable_half : Half
  consumed_offset : Nat
deriving DecidableEq, Repr

/-- `CircBuffer::new` from `src/dma.rs` lines 39-46: starts with
`readable_half = Second` and `consumed_offset = 0`. -/
def CircBuffer.new (b0 b1 : List T) : CircBuffer T :=
  ⟨b0, b1, Half.Second, 0⟩

/-- Rust `&xs[a..b]`: panics (`none`) unless `a ≤ b ∧ b ≤ xs.len()`. -/
def rustSlice (xs : List T) (a b : Nat) : Option (List T) :=
  if a ≤ b ∧ b ≤ xs.length then some ((xs.drop a).take (b - a)) else none

/-- Rust `&xs[a..]`: panics (`none`) unless `a ≤ xs.len()`. -/
def rustSliceFrom (xs : List T) (a : Nat) : Option (List T) :=
  if a ≤ xs.length then some (xs.drop a) else none

/-- `CircBuffer::readable_half` from `src/dma.rs` lines 275-308.  Reads
the ISR flags; if both `htif` and `tcif` are set returns `Overrun`
untouched; otherwise if the flag of the half opposite the recorded one is
set, clears that flag (via IFCR `ctcifX` resp. `chtifX`), flips the
recorded half and returns it; else returns the recorded half unchanged.
Result: (returned value, new buffer state, new flag state). -/
def CircBuffer.readable_half_op (cb : CircBuffer T) (fl : Flags) :
    Except DmaError Half × CircBuffer T × Flags :=
  let first_half_is_done := fl.htif
  let second_half_is_done := fl.tcif
  if first_half_is_done && second_half_is_done then
    (Except.error DmaError.Overrun, cb, fl)
  else
    match cb.readable_half with
    | Half.First =>
        if second_half_is_done then
          (Except.ok Half.Second, { cb with readable_half := Half.Second },
           { fl with tcif := false })
        else
          (Except.ok Half.First, cb, fl)
    | Half.Second =>
        if first_half_is_done then
          (Except.ok Half.First, { cb with readable_half := Half.First },
           { fl with htif := false })
        else
          (Except.ok Half.Second, cb, fl)

/-- The opposite half (the flip `readable_half` performs). -/
def Half.flip : Half → Half
  | Half.First => Half.Second
  | Half.Second => Half.First

/-- Whether the completion flag of the half opposite `rh` is set:
for `First` the opposite half's flag is `tcif`, for `Second` it is
`htif` (as read in `src/dma.rs` lines 286-306). -/
def oppositeFlagSet (rh : Half) (fl : Flags) : Bool :=
  match rh with
  | Half.First => fl.tcif
  | Half.Second => fl.htif

/-- `fl` with the completion flag of the half opposite `rh` cleared. -/
def clearOppositeFlag (rh : Half) (fl : Flags) : Flags :=
  match rh with
  | Half.First => { fl with tcif := false }
  | Half.Second => { fl with htif := false }

/-- `CircBuffer::peek` from `src/dma.rs` lines 256-272: resolve
`readable_half()?` (propagating `Overrun`), slice the readable half from
`consumed_offset` (a Rust `&slice[a..]`, which can panic), zero
`consumed_offset`, and return the callback's value wrapped in `Ok`.
The source callback `FnOnce(&[T], Half) -> R` has no failure channel. -/
def CircBuffer.peek (cb : CircBuffer T) (fl : Flags) (f : List T → Half → R) :
    Option (Except DmaError R × CircBuffer T × Flags) :=
  match cb.readable_half_op fl with
  | (Except.error e, cb1, fl1) => some (Except.error e, cb1, fl1)
  | (Except.ok h, cb1, fl1) =>
      let buf := match h with
        | Half.First => cb1.buf0
        | Half.Second => cb1.buf1
      match rustSliceFrom buf cb1.consumed_offset with
      | none => none
      | some slice =>
          some (Except.ok (f slice h), { cb1 with consumed_offset := 0 }, fl1)

/-- `CircBuffer::partial_peek` from `src/dma.rs` lines 211-253: select the
half being written (the one opposite `readable_half`), read
`pending = cndtr`, subtract the half-capacity once when `pending`
exceeds it (the source's `if pending > capacity { pending - capacity }`),
compute `end = capacity - pending` (a `usize` subtraction that panics if
`pending > capacity`), slice `[consumed_offset..end]` (can panic), call
the callback (`Result<(usize, R), ()>`, modelled as `Option (Nat × R)`),
and on success add the consumed count to `consumed_offset`. -/
def CircBuffer.partial_peek (cb : CircBuffer T) (cndtr : Nat)
    (f : List T → Half → Option (Nat × R)) :
    Option (Except DmaError R × CircBuffer T) :=
  let buf := match cb.readable_half with
    | Half.First => cb.buf1
    | Half.Second => cb.buf0
  let pending := cndtr
  let capacity := buf.length
  let pending := if pending > capacity then pending - capacity else pending
  if capacity < pending then
    none
  else
    let endIdx := capacity - pending
    match rustSlice buf cb.consumed_offset endIdx with
    | none => none
    | some slice =>
        match f slice cb.readable_half with
        | some (l, r) =>
            some (Except.ok r, { cb with consumed_offset := cb.consumed_offset + l })
        | none => some (Except.error DmaError.BufferError, cb)

/-- The boundary exactly as the spec words it:
`end = half_capacity − (remaining() mod half_capacity)`.  Written from
the spec for comparison with the source's computation in
`CircBuffer.partial_peek`. -/
def partialPeekEndSpec (halfCapacity remaining : Nat) : Nat :=
  halfCapacity - remaining % halfCapacity

/-- The half `partial_peek` exposes: the one the engine is writing, i.e.
the half opposite `readable_half` (`src/dma.rs` lines 217-220). -/
def CircBuffer.in_progress_half (cb : CircBuffer T) : List T :=
  match cb.readable_half with
  | Half.First => cb.buf1
  | Half.Second => cb.buf0

/-- The boundary as the source computes it (`src/dma.rs` lines 232-242):
subtract the half-capacity from `remaining` once when it exceeds it, then
`end = half_capacity - pending`.  This equals `partialPeekEndSpec` except
when `remaining` is a positive multiple of `half_capacity`, where it
yields 0 instead of `half_capacity`. -/
def partialPeekEndCode (halfCapacity remaining : Nat) : Nat :=
  halfCapacity -
    (if remaining > halfCapacity then remaining - halfCapacity else remaining)

/-- The per-channel hardware registers a one-shot `Transfer` touches:
the CCR enable bit, the CNDTR transfer count, and the status flags. -/
structure ChanState where
  en : Bool
  cndtr : Nat
  flags : Flags
deriving DecidableEq, Repr

/-- `Transfer::terminate` from `src/dma.rs` lines 325-333: if the enable
bit is set, clear it; else set it.  Each branch then spin-waits for the
readback to match the written value; register writes take effect
immediately in this model, so the spin exits at once and is elided. -/
def ChanState.terminate (c : ChanState) : ChanState :=
  if c.en then { c with en := false } else { c with en := true }

/-- `Transfer::answer_isr` from `src/dma.rs` lines 321-323: writes the
channel's `cgifX` bit of IFCR, which clears the channel's whole flag
group. -/
def ChanState.answer_isr (c : ChanState) : ChanState :=
  { c with flags := Flags.clearedAll }

/-- `Transfer::is_done` from `src/dma.rs` lines 317-319: true iff the
transfer-complete flag is set. -/
def ChanState.is_done (c : ChanState) : Bool :=
  c.flags.tcif

/-- `Transfer` from `src/dma.rs` lines 71-76: owns a buffer, the channel
(its hardware state here), and the lent peripheral payload.  The phantom
mode parameter selects API surface only and is dropped. -/
structure Transfer (B P : Type) where
  buffer : B
  chan : ChanState
  payload : P
deriving DecidableEq, Repr

/-- `Transfer::wait` from `src/dma.rs` lines 335-352: busy-polls
`is_done()`; the loop body is empty and no modelled step changes the
flags, so the call returns iff the flag is already set (`none` =
spins forever) and the returned `Nat` counts the polling iterations
executed after the first check (0 when already complete).  Then
`answer_isr` clears the flags, `terminate` toggles the enable bit, a
compiler fence (no data effect) runs, and buffer, channel and payload are
returned by value. -/
def Transfer.wait (t : Transfer B P) : Option (B × ChanState × P × Nat) :=
  if t.chan.is_done then
    let c := t.chan.answer_isr
    let c := c.terminate
    some (t.buffer, c, t.payload, 0)
  else
    none

/-- `Transfer::restart` from `src/dma.rs` lines 371-394 (write-mode
transfer into a static buffer, modelled as a list): `terminate()`, fence,
read `pending = cndtr` and `capacity = buffer.len()`, fence, write
`cndtr := capacity`, set the enable bit, then return
`Some &buffer[..capacity - pending]` when `pending != capacity` and
`None` otherwise.  The `usize` subtraction / slicing panics when
`pending > capacity` (`none`). -/
def Transfer.restart (t : Transfer (List T) P) :
    Option (Option (List T) × Transfer (List T) P) :=
  let c := t.chan.terminate
  let pending := c.cndtr
  let capacity := t.buffer.length
  let c := { c with cndtr := capacity, en := true }
  if pending ≠ capacity then
    if capacity < pending then
      none
    else
      some (some (t.buffer.take (capacity - pending)), { t with chan := c })
  else
    some (none, { t with chan := c })

/-- A USART as the DMA entry points see it: the memory-mapped addresses
of its receive and transmit data registers. -/
structure Usart where
  rdrAddr : Nat
  tdrAddr : Nat
deriving DecidableEq, Repr

/-- The channel registers the serial entry points program: memory address
(CMAR), transfer count (CNDTR), peripheral address (CPAR), and the CCR
fields written by the final `modify`. -/
structure ChanConfig where
  cmar : Nat
  cndtr : Nat
  cpar : Nat
  mem2mem : Bool
  pl : Nat
  msize : Nat
  psize : Nat
  minc : Bool
  pinc : Bool
  circ : Bool
  dir : Bool
  en : Bool
deriving DecidableEq, Repr

/-- The channel programming of `Tx::write_all` from `src/serial/mod.rs`
lines 319-373: CMAR = buffer address, CNDTR = buffer length, CPAR = the
address of the USART's `rdr` register (line 337 of the source takes
`&(*$USARTX::ptr()).rdr`), priority `0b01`, `dir` set
(memory-to-peripheral), circular mode off, enable set. -/
def write_all_cfg (u : Usart) (bufAddr bufLen : Nat) : ChanConfig :=
  { cmar := bufAddr, cndtr := bufLen, cpar := u.rdrAddr,
    mem2mem := false, pl := 0b01, msize := 0b00, psize := 0b00,
    minc := true, pinc := false, circ := false, dir := true, en := true }

/-- The channel programming of `Rx::read_exact` from `src/serial/mod.rs`
lines 262-315: CPAR = the address of the USART's `rdr` register,
priority `0b10`, `dir` clear (peripheral-to-memory), circular mode off,
enable set. -/
def read_exact_cfg (u : Usart) (bufAddr bufLen : Nat) : ChanConfig :=
  { cmar := bufAddr, cndtr := bufLen, cpar := u.rdrAddr,
    mem2mem := false, pl := 0b10, msize := 0b00, psize := 0b00,
    minc := true, pinc := false, circ := false, dir := false, en := true }

/-- The channel programming of `Rx::circ_read` from `src/serial/mod.rs`
lines 207-260: CMAR = address of the two-half buffer, CNDTR = length of
one half times two (`buffer.len() * 2` where `buffer = &buffer[0]`),
CPAR = the USART's `rdr` address, circular mode on, `dir` clear,
enable set. -/
def circ_read_cfg (u : Usart) (bufAddr halfLen : Nat) : ChanConfig :=
  { cmar := bufAddr, cndtr := halfLen * 2, cpar := u.rdrAddr,
    mem2mem := false, pl := 0b10, msize := 0b00, psize := 0b00,
    minc := true, pinc := false, circ := true, dir := false, en := true }

/-- `Rx::circ_read` overall: programs the channel (`circ_read_cfg`) and
returns `CircBuffer::new(buffer, chan)`. -/
def circ_read (u : Usart) (bufAddr : Nat) (b0 b1 : List T) :
    CircBuffer T × ChanConfig :=
  (CircBuffer.new b0 b1, circ_read_cfg u bufAddr b0.length)

end Stm32

namespace Stm32

/-- C1: `readable_half()` returns `Overrun` exactly when both flags are
observed set; otherwise, when the flag of the half opposite the recorded
one is set it clears that flag, flips `readable_half` and returns the new
half, and when it is not set it returns the recorded half with no state
change. -/
theorem readable_half_decision_rule (T : Type) (cb : CircBuffer T) (fl : Flags) :
    (((cb.readable_half_op fl).1 = Except.error DmaError.Overrun) ↔
        (fl.htif = true ∧ fl.tcif = true)) ∧
    (¬(fl.htif = true ∧ fl.tcif = true) →
      (if oppositeFlagSet cb.readable_half fl then
        cb.readable_half_op fl =
          (Except.ok cb.readable_half.flip,
           { cb with readable_half := cb.readable_half.flip },
           clearOppositeFlag cb.readable_half fl)
      else
        cb.readable_half_op fl = (Except.ok cb.readable_half, cb, fl))) := by
  obtain ⟨b0, b1, rh, co⟩ := cb
  obtain ⟨g, ht, tc, te⟩ := fl
  cases ht <;> cases tc <;> cases rh <;>
    simp [CircBuffer.readable_half_op, oppositeFlagSet, clearOppositeFlag, Half.flip]

/-- C7: when both flags are observed set, `readable_half()` returns
`Overrun` and has no side effect: no flag is cleared and the buffer state
(`readable_half`, `consumed_offset`) is unchanged. -/
theorem readable_half_overrun_no_side_effect (T : Type) (cb : CircBuffer T)
    (fl : Flags) (h1 : fl.htif = true) (h2 : fl.tcif = true) :
    cb.readable_half_op fl = (Except.error DmaError.Overrun, cb, fl) := by
  simp [CircBuffer.readable_half_op, h1, h2]

/-- Witness for C7 at a concrete state: both flags set, recorded half
`First`, nonzero `consumed_offset`. -/
theorem readable_half_overrun_no_side_effect_witness :
    (CircBuffer.mk [10] [20] Half.First 3).readable_half_op
        (Flags.mk false true true false) =
      (Except.error DmaError.Overrun, CircBuffer.mk [10] [20] Half.First 3,
       Flags.mk false true true false) :=
  readable_half_overrun_no_side_effect Nat _ _ rfl rfl

/-- C5 counterexample: a transfer whose completion flag is set but whose
enable bit is clear (reachable through the public API: `terminate()` then
`wait()`).  `wait` returns immediately with the flags cleared, but
`terminate`'s toggle SETS the enable bit, so the channel is returned
enabled, not disabled as claimed. -/
theorem wait_enable_bit_counterexample :
    (Transfer.mk [1, 2] (ChanState.mk false 0 (Flags.mk false false true false))
        () : Transfer (List Nat) Unit).wait =
      some ([1, 2], ChanState.mk true 0 Flags.clearedAll, (), 0) := by
  decide

/-- C5 amended: on a one-shot transfer whose completion flag is already
set AND whose enable bit is set (the state the armed API always leaves),
`wait()` returns immediately (0 polling iterations), clears the channel's
flags, leaves the enable bit cleared, and yields the original buffer,
channel and payload by value. -/
theorem wait_already_complete (B P : Type) (t : Transfer B P)
    (hd : t.chan.flags.tcif = true) (hen : t.chan.en = true) :
    t.wait = some (t.buffer, ChanState.mk false t.chan.cndtr Flags.clearedAll,
      t.payload, 0) := by
  simp [Transfer.wait, ChanState.is_done, hd, ChanState.answer_isr,
    ChanState.terminate, hen]

/-- Witness for C5's amended theorem at a concrete armed transfer. -/
theorem wait_already_complete_witness :
    (Transfer.mk [7, 8] (ChanState.mk true 0 (Flags.mk true true true false))
        () : Transfer (List Nat) Unit).wait =
      some ([7, 8], ChanState.mk false 0 Flags.clearedAll, (), 0) :=
  wait_already_complete (List Nat) Unit _ rfl rfl

/-- C6: for a write-mode transfer whose transfer count does not exceed the
buffer capacity (the hardware counts down from that capacity), `restart()`
returns `None` exactly when `remaining()` equals the full capacity and the
written prefix `[0 .. capacity - remaining())` otherwise, and in both
cases re-arms the count register to the full capacity and leaves the
enable bit set. -/
theorem restart_returns_written_part (T P : Type) (t : Transfer (List T) P)
    (h : t.chan.cndtr ≤ t.buffer.length) :
    t.restart = some
      ((if t.chan.cndtr = t.buffer.length then none
        else some (t.buffer.take (t.buffer.length - t.chan.cndtr))),
       Transfer.mk t.buffer
         (ChanState.mk true t.buffer.length t.chan.flags) t.payload) := by
  obtain ⟨buf, ⟨en, cndtr, fl⟩, p⟩ := t
  simp only [Transfer.restart, ChanState.terminate]
  by_cases hc : cndtr = buf.length
  · cases en <;> simp [hc]
  · cases en <;> simp [hc, Nat.not_lt.mpr h]

/-- Witness for C6 at a concrete transfer: capacity 3, remaining 1, so the
written prefix has 2 elements. -/
theorem restart_returns_written_part_witness :
    (Transfer.mk [5, 6, 7] (ChanState.mk true 1 (Flags.mk false false true false))
        () : Transfer (List Nat) Unit).restart =
      some (some [5, 6],
        Transfer.mk [5, 6, 7] (ChanState.mk true 3 (Flags.mk false false true false)) ()) := by
  have h := restart_returns_written_part Nat Unit
    (Transfer.mk [5, 6, 7] (ChanState.mk true 1 (Flags.mk false false true false)) ())
    (by decide)
  simpa using h

/-- C2 counterexample: half-capacity 2, `remaining() = 2` (a positive
multiple of the half-capacity, within the hardware range `[0, 4]`),
`consumed_offset = 0`.  The spec's boundary `2 − (2 mod 2) = 2` demands
the whole half `[10, 20]`, but the source computes `end = 2 − 2 = 0` and
exposes the empty slice (observed by a callback returning its argument). -/
theorem partial_peek_boundary_counterexample :
    (CircBuffer.mk [10, 20] [30, 40] Half.Second 0).partial_peek 2
        (fun s _ => some (0, s)) =
      some (Except.ok ([] : List Nat),
        CircBuffer.mk [10, 20] [30, 40] Half.Second 0) ∧
    partialPeekEndSpec 2 2 = 2 ∧
    ((([10, 20] : List Nat).drop 0).take (2 - 0) = [10, 20]) ∧
    ([] : List Nat) ≠ [10, 20] := by
  refine ⟨rfl, by decide, by decide, by decide⟩

/-- The source's adjusted pending count never exceeds the half-capacity
while `remaining()` stays in the hardware range `[0, 2·half_capacity]`. -/
theorem pendingAdjust_le (cap cndtr : Nat) (hr : cndtr ≤ 2 * cap) :
    (if cndtr > cap then cndtr - cap else cndtr) ≤ cap := by
  split <;> omega

/-- Evaluation of `partial_peek` when `remaining()` is in the hardware
range and `consumed_offset` does not exceed the computed boundary: the
callback is applied to exactly the slice `[consumed_offset .. end)` of
the in-progress half. -/
theorem partial_peek_eval (T R : Type) (cb : CircBuffer T) (cndtr : Nat)
    (f : List T → Half → Option (Nat × R))
    (hr : cndtr ≤ 2 * cb.in_progress_half.length)
    (hc : cb.consumed_offset ≤ partialPeekEndCode cb.in_progress_half.length cndtr) :
    cb.partial_peek cndtr f =
      match f ((cb.in_progress_half.drop cb.consumed_offset).take
          (partialPeekEndCode cb.in_progress_half.length cndtr -
            cb.consumed_offset)) cb.readable_half with
      | some (l, r) =>
          some (Except.ok r, { cb with consumed_offset := cb.consumed_offset + l })
      | none => some (Except.error DmaError.BufferError, cb) := by
  obtain ⟨b0, b1, rh, co⟩ := cb
  cases rh <;>
    simp only [CircBuffer.in_progress_half, partialPeekEndCode] at hr hc ⊢ <;>
    simp only [CircBuffer.partial_peek, rustSlice] <;>
    rw [if_neg (Nat.not_lt.mpr (pendingAdjust_le _ _ hr)),
      if_pos ⟨hc, Nat.sub_le _ _⟩] <;>
    rfl

/-- C2 amended: the slice `partial_peek` exposes is
`[consumed_offset .. end)` of the half not currently readable, with
`end = half_capacity - pending` where `pending` is `remaining()` reduced
by the half-capacity once when it exceeds it (this equals
`half_capacity − (remaining mod half_capacity)` except when `remaining`
is a positive multiple of `half_capacity`, where `end = 0`).  Stated for
`remaining()` in the hardware range and an in-bounds `consumed_offset`,
observed through a callback that returns the slice it is given and
consumes nothing. -/
theorem partial_peek_exposed_slice (T : Type) (cb : CircBuffer T) (cndtr : Nat)
    (hr : cndtr ≤ 2 * cb.in_progress_half.length)
    (hc : cb.consumed_offset ≤ partialPeekEndCode cb.in_progress_half.length cndtr) :
    cb.partial_peek cndtr (fun s h => some (0, (s, h))) =
      some (Except.ok
          ((cb.in_progress_half.drop cb.consumed_offset).take
            (partialPeekEndCode cb.in_progress_half.length cndtr -
              cb.consumed_offset),
          cb.readable_half), cb) := by
  rw [partial_peek_eval T (List T × Half) cb cndtr _ hr hc]
  simp

/-- Witness for C2's amended theorem: half-capacity 3, `remaining() = 4`
(so `pending = 1`, `end = 2`), `consumed_offset = 1`: the exposed slice
is the single element at index 1 of the in-progress half. -/
theorem partial_peek_exposed_slice_witness :
    (CircBuffer.mk [10, 20, 30] [40, 50, 60] Half.First 1).partial_peek 4
        (fun s h => some (0, (s, h))) =
      some (Except.ok (([50] : List Nat), Half.First),
        CircBuffer.mk [10, 20, 30] [40, 50, 60] Half.First 1) :=
  (partial_peek_exposed_slice Nat
    (CircBuffer.mk [10, 20, 30] [40, 50, 60] Half.First 1) 4
    (by decide) (by decide)).trans rfl

/-- C3 counterexample: half-capacity 2, `remaining() = 2 ∈ [0, 4]`,
`consumed_offset = 1 ≤ 2`: the source computes `end = 0 <
consumed_offset`, so the slicing `slice[1..0]` panics (`none`), refuting
the claimed bound `consumed_offset ≤ end` and the claimed impossibility
of the panic branch. -/
theorem partial_peek_panic_counterexample :
    (CircBuffer.mk [10, 20] [30, 40] Half.Second 1).partial_peek 2
        (fun _ _ => some (0, (0 : Nat))) = none :=
  rfl

/-- C3 amended: the computed boundary always satisfies
`end ≤ half_capacity`, and for `remaining()` in the hardware range
`[0, 2·half_capacity]` the slicing is in bounds and `partial_peek` cannot
panic provided `consumed_offset ≤ end` (the bound `consumed_offset ≤
half_capacity` alone does not suffice, as the counterexample shows). -/
theorem partial_peek_no_panic (T R : Type) (cb : CircBuffer T) (cndtr : Nat)
    (f : List T → Half → Option (Nat × R))
    (hr : cndtr ≤ 2 * cb.in_progress_half.length)
    (hc : cb.consumed_offset ≤ partialPeekEndCode cb.in_progress_half.length cndtr) :
    partialPeekEndCode cb.in_progress_half.length cndtr ≤
        cb.in_progress_half.length ∧
    (cb.partial_peek cndtr f).isSome = true := by
  refine ⟨Nat.sub_le _ _, ?_⟩
  rw [partial_peek_eval T R cb cndtr f hr hc]
  rcases f ((cb.in_progress_half.drop cb.consumed_offset).take
      (partialPeekEndCode cb.in_progress_half.length cndtr -
        cb.consumed_offset)) cb.readable_half with _ | ⟨l, r⟩ <;>
    rfl

/-- Witness for C3's amended theorem at the concrete state of the C2
witness. -/
theorem partial_peek_no_panic_witness :
    partialPeekEndCode 3 4 ≤ 3 ∧
    ((CircBuffer.mk [10, 20, 30] [40, 50, 60] Half.First 1).partial_peek 4
      (fun _ _ => some (1, (0 : Nat)))).isSome = true :=
  partial_peek_no_panic Nat Nat
    (CircBuffer.mk [10, 20, 30] [40, 50, 60] Half.First 1) 4
    (fun _ _ => some (1, (0 : Nat))) (by decide) (by decide)

/-- C4 counterexample: with `consumed_offset = 3` and both flags set,
`peek` propagates `Overrun` through `?` before the reset line runs, so
`consumed_offset` is still 3 ≠ 0 after the call. -/
theorem peek_consumed_offset_counterexample :
    (CircBuffer.mk [10] [20] Half.First 3).peek (Flags.mk false true true false)
        (fun _ _ => (0 : Nat)) =
      some (Except.error DmaError.Overrun, CircBuffer.mk [10] [20] Half.First 3,
        Flags.mk false true true false) ∧
    (CircBuffer.mk ([10] : List Nat) [20] Half.First 3).consumed_offset ≠ 0 := by
  refine ⟨rfl, by decide⟩

/-- C4 amended: after every `peek()` call that returns successfully (no
`Overrun`), `consumed_offset` equals 0; on `Overrun` the call returns
early and `consumed_offset` is unchanged. -/
theorem peek_success_resets_consumed_offset (T R : Type) (cb : CircBuffer T)
    (fl : Flags) (f : List T → Half → R) (r : Except DmaError R)
    (cb' : CircBuffer T) (fl' : Flags)
    (hok : ∃ v, r = Except.ok v)
    (h : cb.peek fl f = some (r, cb', fl')) :
    cb'.consumed_offset = 0 := by
  simp only [CircBuffer.peek] at h
  split at h
  · obtain ⟨v, rfl⟩ := hok
    simp at h
  · split at h
    · exact absurd h (by simp)
    · simp only [Option.some.injEq, Prod.mk.injEq] at h
      obtain ⟨-, hcb, -⟩ := h
      rw [← hcb]

/-- Witness for C4's amended theorem: a successful `peek` from a state
with `consumed_offset = 1` leaves it 0. -/
theorem peek_success_resets_consumed_offset_witness :
    (CircBuffer.mk [10, 20] [30, 40] Half.First 0 : CircBuffer Nat).consumed_offset
      = 0 :=
  peek_success_resets_consumed_offset Nat Nat
    (CircBuffer.mk [10, 20] [30, 40] Half.Second 1)
    (Flags.mk false true false false) (fun s _ => s.length)
    (Except.ok 1) (CircBuffer.mk [10, 20] [30, 40] Half.First 0)
    (Flags.mk false false false false) ⟨1, rfl⟩ rfl

/-- `readable_half_op` only ever signals `Overrun`: auxiliary fact used
for the `peek` error analysis. -/
theorem readable_half_op_error_eq (T : Type) (cb : CircBuffer T) (fl : Flags) :
    ∀ e cb1 fl1, cb.readable_half_op fl = (Except.error e, cb1, fl1) →
      e = DmaError.Overrun := by
  obtain ⟨b0, b1, rh, co⟩ := cb
  obtain ⟨g, ht, tc, te⟩ := fl
  cases ht <;> cases tc <;> cases rh <;> simp [CircBuffer.readable_half_op]

/-- When the two flags are not both set, `readable_half_op` does not
fail: auxiliary fact used for the `peek` error analysis. -/
theorem readable_half_op_not_error (T : Type) (cb : CircBuffer T) (fl : Flags)
    (h : ¬(fl.htif = true ∧ fl.tcif = true)) :
    ∀ e cb1 fl1, cb.readable_half_op fl ≠ (Except.error e, cb1, fl1) := by
  obtain ⟨b0, b1, rh, co⟩ := cb
  obtain ⟨g, ht, tc, te⟩ := fl
  cases ht <;> cases tc <;> cases rh <;>
    simp_all [CircBuffer.readable_half_op]

/-- C8: `peek(f)` returns `BufferError` exactly when `f` reports failure;
the source callback type `FnOnce(&[T], Half) -> R` has no failure
channel, so `peek` never returns `BufferError`, and in the absence of an
`Overrun` every returned value is `f`'s result wrapped in success. -/
theorem peek_buffer_error_iff (T R : Type) (cb : CircBuffer T) (fl : Flags)
    (f : List T → Half → R) :
    (∀ r cb' fl', cb.peek fl f = some (r, cb', fl') →
      r ≠ Except.error DmaError.BufferError) ∧
    (¬(fl.htif = true ∧ fl.tcif = true) →
      ∀ r cb' fl', cb.peek fl f = some (r, cb', fl') →
        ∃ s hh, r = Except.ok (f s hh)) := by
  constructor
  · intro r cb' fl' h
    simp only [CircBuffer.peek] at h
    split at h
    next e cb1 fl1 heq =>
      have he : e = DmaError.Overrun := readable_half_op_error_eq T cb fl e cb1 fl1 heq
      simp only [Option.some.injEq, Prod.mk.injEq] at h
      obtain ⟨hr, -, -⟩ := h
      rw [← hr, he]
      simp
    next hh cb1 fl1 heq =>
      split at h
      · exact absurd h (by simp)
      · simp only [Option.some.injEq, Prod.mk.injEq] at h
        obtain ⟨hr, -, -⟩ := h
        rw [← hr]
        simp
  · intro hno r cb' fl' h
    simp only [CircBuffer.peek] at h
    split at h
    next e cb1 fl1 heq =>
      exact absurd heq (readable_half_op_not_error T cb fl hno e cb1 fl1)
    next hh cb1 fl1 heq =>
      split at h
      · exact absurd h (by simp)
      next slice hsl =>
        simp only [Option.some.injEq, Prod.mk.injEq] at h
        obtain ⟨hr, -, -⟩ := h
        exact ⟨slice, hh, hr.symm⟩

/-- C9: `write_all` programs the channel's peripheral address register
with the address of the USART's receive data register — the same address
`read_exact` programs — while setting `dir` (memory-to-peripheral); the
transmit data register's address (distinct on the hardware) is never the
programmed peripheral address. -/
theorem write_all_programs_rdr (u : Usart) (a l a2 l2 : Nat)
    (h : u.rdrAddr ≠ u.tdrAddr) :
    (write_all_cfg u a l).cpar = u.rdrAddr ∧
    (write_all_cfg u a l).cpar = (read_exact_cfg u a2 l2).cpar ∧
    (write_all_cfg u a l).dir = true ∧
    (write_all_cfg u a l).cpar ≠ u.tdrAddr :=
  ⟨rfl, rfl, rfl, h⟩

/-- Witness for C9 at the USART2 data-register addresses
(RDR at 0x40004424, TDR at 0x40004428). -/
theorem write_all_programs_rdr_witness :
    (write_all_cfg (Usart.mk 0x40004424 0x40004428) 0x20000000 16).cpar =
        (Usart.mk 0x40004424 0x40004428).rdrAddr ∧
    (write_all_cfg (Usart.mk 0x40004424 0x40004428) 0x20000000 16).cpar =
        (read_exact_cfg (Usart.mk 0x40004424 0x40004428) 0x20000100 8).cpar ∧
    (write_all_cfg (Usart.mk 0x40004424 0x40004428) 0x20000000 16).dir = true ∧
    (write_all_cfg (Usart.mk 0x40004424 0x40004428) 0x20000000 16).cpar ≠
        (Usart.mk 0x40004424 0x40004428).tdrAddr :=
  write_all_programs_rdr (Usart.mk 0x40004424 0x40004428) 0x20000000 16
    0x20000100 8 (by decide)

/-- C10: every `CircBuffer` returned by `circ_read` starts with
`readable_half = Second` and `consumed_offset = 0`, the programmed
transfer count is twice the length of one half, and the first flip
(first half complete, second not) yields `First`. -/
theorem circ_read_initial_state (T : Type) (u : Usart) (a : Nat)
    (b0 b1 : List T) (fl : Flags) (h1 : fl.htif = true) (h2 : fl.tcif = false) :
    (circ_read u a b0 b1).1.readable_half = Half.Second ∧
    (circ_read u a b0 b1).1.consumed_offset = 0 ∧
    (circ_read u a b0 b1).2.cndtr = b0.length * 2 ∧
    ((circ_read u a b0 b1).1.readable_half_op fl).1 = Except.ok Half.First := by
  refine ⟨rfl, rfl, rfl, ?_⟩
  simp [circ_read, CircBuffer.new, CircBuffer.readable_half_op, h1, h2,
    circ_read_cfg]

/-- Witness for C10 at a concrete buffer pair and flag state. -/
theorem circ_read_initial_state_witness :
    (circ_read (Usart.mk 0x40004424 0x40004428) 0x20000000 [1, 2]
        ([3, 4] : List Nat)).1.readable_half = Half.Second ∧
    (circ_read (Usart.mk 0x40004424 0x40004428) 0x20000000 [1, 2]
        ([3, 4] : List Nat)).1.consumed_offset = 0 ∧
    (circ_read (Usart.mk 0x40004424 0x40004428) 0x20000000 [1, 2]
        ([3, 4] : List Nat)).2.cndtr = 4 ∧
    ((circ_read (Usart.mk 0x40004424 0x40004428) 0x20000000 [1, 2]
        ([3, 4] : List Nat)).1.readable_half_op
        (Flags.mk false true false false)).1 = Except.ok Half.First := by
  have h := circ_read_initial_state Nat (Usart.mk 0x40004424 0x40004428)
    0x20000000 [1, 2] [3, 4] (Flags.mk false true false false) rfl rfl
  simpa using h

end Stm32
